import Mathlib

/-!
Shallow embedding of the appwrite-mailer invitation handler.

The repository holds one source file, src/src/main.js, containing two
revisions of the same serverless handler.  The final revision
(the second document, lines 120-274) is the one the specification
describes: it validates the payload, validates configuration, verifies
the mail transporter, fans out one send per recipient with local error
capture, partitions the outcomes and assembles a JSON summary.  The
first revision (lines 4-115) is embedded as well, as handleV1, for
contrast: it discards outcomes (catch returns null) and always answers
with a fixed success response.

External effects are modelled as oracles:
  * JSON.parse is a host primitive; a request carries its outcome
    directly (absent payload / parse error / parsed value).
  * the mail transport is a Transport record giving the result of
    transporter creation, of transporter.verify, and of the i-th
    sendMail call (i is the call sequence number along the emails list).
  * every transport interaction is recorded in a Trace so that claims
    about "zero sends" are statements about the trace.
-/

namespace AppwriteMailer

/-- JSON values as produced by JSON.parse (numbers simplified to Int;
the claims only involve strings, arrays and objects). -/
inductive Json where
  | null
  | bool (b : Bool)
  | num (n : Int)
  | str (s : String)
  | arr (elems : List Json)
  | obj (fields : List (String × Json))

/-- Property access `payload.k` as used by the destructuring
`const \x7b emails, testLink, testCode \x7d = payload`: a field of an
object (for duplicate keys JSON.parse keeps the last one, hence the
reverse), undefined (`none`) on any non-object. -/
def getField : Json → String → Option Json
  | .obj kvs, k => List.lookup k kvs.reverse
  | _, _ => none

/-- JavaScript truthiness of a possibly-undefined JSON value, as used by
`!testLink` and `!testCode`: undefined, null, false, 0 and "" are falsy. -/
def truthy : Option Json → Bool
  | none => false
  | some .null => false
  | some (.bool b) => b
  | some (.num n) => n != 0
  | some (.str s) => s != ""
  | some (.arr _) => true
  | some (.obj _) => true

/-- The check `Array.isArray(emails) && emails.length !== 0`, the
positive form of the guard `!Array.isArray(emails) || emails.length === 0`. -/
def isNonEmptyArray : Option Json → Bool
  | some (.arr xs) => !xs.isEmpty
  | _ => false

/-- The element list of the validated emails value. -/
def arrayElems : Option Json → List Json
  | some (.arr xs) => xs
  | _ => []

/-- JavaScript string conversion, as performed by template-literal
interpolation on the destructured values. -/
def jsToString : Json → String
  | .null => "null"
  | .bool b => if b then "true" else "false"
  | .num n => toString n
  | .str s => s
  | .arr xs => String.intercalate "," (xs.attach.map (fun x => jsToString x.1))
  | .obj _ => "[object Object]"
decreasing_by
  simp_wf
  have h := List.sizeOf_lt_of_mem x.2
  omega

/-- Model of `process.env`: each variable is absent or a string.  `!process.env.X`
is true when the variable is absent or the empty string. -/
def envTruthy : Option String → Bool
  | none => false
  | some s => s != ""

/-- The five configuration values the handler reads from process.env. -/
structure Env where
  APPWRITE_ENDPOINT : Option String
  APPWRITE_FUNCTION_PROJECT_ID : Option String
  APPWRITE_API_KEY : Option String
  EMAIL_USER : Option String
  EMAIL_APP_PASSWORD : Option String

/-- All five required environment variables pass their truthiness checks. -/
def envComplete (env : Env) : Bool :=
  envTruthy env.APPWRITE_ENDPOINT && envTruthy env.APPWRITE_FUNCTION_PROJECT_ID &&
    envTruthy env.APPWRITE_API_KEY && envTruthy env.EMAIL_USER &&
    envTruthy env.EMAIL_APP_PASSWORD

/-- A thrown JavaScript Error, with its message and stack. -/
structure JsError where
  message : String
  stack : String

/-- The mailOptions object built for one recipient (the source key
`from` is a Lean keyword, hence the guillemets). -/
structure MailOptions where
  «from» : String
  «to» : Json
  subject : String
  html : String

/-- The fixed pieces of the HTML template around the first interpolation
slot (everything up to `<a href="`). -/
def htmlPart1 : String :=
  "\n                            <div style=\"font-family: Arial, sans-serif; max-width: 600px; margin: 0 auto;\">\n" ++
  "                                <h2>You\x27ve Been Invited to Participate in a Test</h2>\n" ++
  "                                <p>You can access the test using the following details:</p>\n" ++
  "                                <p><strong>Test Link:</strong> <a href=\""

/-- Between the href interpolation and the link-text interpolation. -/
def htmlPart2 : String := "\">"

/-- Between the link-text interpolation and the testCode interpolation. -/
def htmlPart3 : String :=
  "</a></p>\n                                <p><strong>Test Code:</strong> "

/-- After the testCode interpolation, to the end of the template. -/
def htmlPart4 : String :=
  "</p>\n                                <p>Please click the link above to begin the test.</p>\n" ++
  "                                <p>If you have any questions, please contact the test administrator.</p>\n" ++
  "                            </div>\n                        "

/-- The html template literal: testLink is interpolated verbatim both as
the href target and as the link text, and testCode verbatim, with no
escaping of either value. -/
def invitationHtml (testLink testCode : String) : String :=
  htmlPart1 ++ testLink ++ htmlPart2 ++ testLink ++ htmlPart3 ++ testCode ++ htmlPart4

/-- The mailOptions built for one recipient address (main.js lines
221-235): sender is the configured mail identity, recipient the address,
subject a fixed literal, body the interpolated template.  At every call
site EMAIL_USER has already passed its truthiness check, so the getD
default is never the value used. -/
def mailOptionsFor (env : Env) (testLink testCode : Json) (email : Json) : MailOptions :=
  { «from» := env.EMAIL_USER.getD ""
    «to» := email
    subject := "Invitation to Participate in a Test"
    html := invitationHtml (jsToString testLink) (jsToString testCode) }

/-- One per-recipient DispatchOutcome (revision 2): on success the
transport message identifier, on failure the caught error message. -/
structure Outcome where
  email : Json
  success : Bool
  messageId : Option String
  error : Option String

/-- The details object of the final response: the partition of the
outcomes. -/
structure Details where
  successful : List Outcome
  failed : List Outcome

/-- The JSON response the handler returns through context.res.json. -/
structure Response where
  success : Bool
  message : String
  details : Option Details := none
  error : Option String := none

/-- Oracle for the mail transport: the result of transporter creation
(nodemailer.createTransport together with the sdk client setup, the only
modelled calls that can throw to the top-level catch), of
transporter.verify, and of the i-th transporter.sendMail call. -/
structure Transport where
  create : Except JsError Unit
  verify : Except JsError Unit
  send : Nat → Except JsError String

/-- Trace of the transport interactions an invocation performed. -/
structure Trace where
  verifyCalls : Nat
  sends : List MailOptions

/-- The inbound context: none models a missing or falsy
context.req?.payload; otherwise the payload is present and carries the
outcome of JSON.parse on it (a parse error message or the parsed value). -/
structure Context where
  payload : Option (Except String Json)

/-- The per-recipient send with local try/catch (main.js lines 217-244):
success yields an Outcome with the messageId, failure is caught and
yields an Outcome with success false and the error message.  i is the
call sequence number used to query the oracle. -/
def outcomeFor (tr : Transport) (i : Nat) (email : Json) : Outcome :=
  match tr.send i with
  | .ok mid => { email := email, success := true, messageId := some mid, error := none }
  | .error e => { email := email, success := false, messageId := none, error := some e.message }

/-- The list of outcomes of the concurrent fan-out, one per entry of
emails in order, the i-th attempt consuming the i-th oracle answer. -/
def dispatchResults (tr : Transport) : Nat → List Json → List Outcome
  | _, [] => []
  | i, e :: rest => outcomeFor tr i e :: dispatchResults tr (i + 1) rest

/-- The mailOptions submitted to sendMail, one per entry of emails in
order (the options do not depend on the position). -/
def sendsList (env : Env) (testLink testCode : Json) (emails : List Json) : List MailOptions :=
  emails.map (mailOptionsFor env testLink testCode)

/-- The try-block of the revision-2 handler (main.js lines 121-264).
Returns the normal response, or the JsError that escaped to the
top-level catch, together with the trace of transport interactions. -/
def handleBody (ctx : Context) (env : Env) (tr : Transport) :
    Except JsError Response × Trace :=
  match ctx.payload with
  | none =>
      (.ok { success := false, message := "No payload provided" }, ⟨0, []⟩)
  | some (.error _) =>
      (.ok { success := false, message := "Invalid JSON in payload" }, ⟨0, []⟩)
  | some (.ok payload) =>
      let emails := getField payload "emails"
      let testLink := getField payload "testLink"
      let testCode := getField payload "testCode"
      if !isNonEmptyArray emails || !truthy testLink || !truthy testCode then
        (.ok { success := false,
               message := "Missing required fields: emails (must be a non-empty array), testLink, or testCode" },
         ⟨0, []⟩)
      else if !envTruthy env.APPWRITE_ENDPOINT || !envTruthy env.APPWRITE_FUNCTION_PROJECT_ID ||
          !envTruthy env.APPWRITE_API_KEY then
        (.ok { success := false,
               message := "Appwrite SDK configuration missing in environment variables" },
         ⟨0, []⟩)
      else if !envTruthy env.EMAIL_USER || !envTruthy env.EMAIL_APP_PASSWORD then
        (.ok { success := false,
               message := "Email configuration missing in environment variables" },
         ⟨0, []⟩)
      else
        match tr.create with
        | .error e => (.error e, ⟨0, []⟩)
        | .ok _ =>
          match tr.verify with
          | .error e =>
              (.ok { success := false,
                     message := "Email configuration verification failed: " ++ e.message },
               ⟨1, []⟩)
          | .ok _ =>
              let emailList := arrayElems emails
              let emailResults := dispatchResults tr 0 emailList
              let successfulEmails := emailResults.filter (fun r => r.success)
              let failedEmails := emailResults.filter (fun r => !r.success)
              (.ok { success := decide (0 < successfulEmails.length),
                     message := "Successfully sent " ++ toString successfulEmails.length ++
                       " out of " ++ toString emailList.length ++ " invitations",
                     details := some ⟨successfulEmails, failedEmails⟩ },
               ⟨1, sendsList env (testLink.getD .null) (testCode.getD .null) emailList⟩)

/-- The exported handler (revision 2): the try-block wrapped in the
top-level catch (main.js lines 266-273), which converts any escaped
error into a failure response carrying the error message. -/
def handle (ctx : Context) (env : Env) (tr : Transport) : Response × Trace :=
  match handleBody ctx env tr with
  | (.ok r, t) => (r, t)
  | (.error e, t) =>
      ({ success := false, message := "Unexpected error: " ++ e.message,
         error := some e.stack }, t)

/-- The first-revision response, sent through res.status(code).json(body). -/
structure ResponseV1 where
  status : Nat
  success : Bool
  message : String
  error : Option String := none

/-- The first-revision handler (main.js lines 4-115).  Same validation
chain, but per-recipient failures are swallowed (the catch returns null,
so no outcome survives) and after the barrier it always answers 200 with
a fixed success message.  When req or res is missing it returns without
a response (none).  The send results are ignored, hence the transport
oracle is not consulted for the response. -/
def handleV1 (reqResPresent : Bool) (payload : Option (Except String Json))
    (env : Env) : Option ResponseV1 × List MailOptions :=
  if !reqResPresent then (none, [])
  else
    match payload with
    | none => (some ⟨400, false, "No payload provided", none⟩, [])
    | some (.error _) => (some ⟨400, false, "Invalid JSON in payload", none⟩, [])
    | some (.ok p) =>
      let emails := getField p "emails"
      let testLink := getField p "testLink"
      let testCode := getField p "testCode"
      if !isNonEmptyArray emails || !truthy testLink || !truthy testCode then
        (some ⟨400, false,
           "Missing required fields: emails (must be a non-empty array), testLink, or testCode",
           none⟩, [])
      else if !envTruthy env.APPWRITE_ENDPOINT || !envTruthy env.APPWRITE_FUNCTION_PROJECT_ID ||
          !envTruthy env.APPWRITE_API_KEY then
        (some ⟨500, false, "Appwrite SDK configuration missing in environment variables", none⟩, [])
      else if !envTruthy env.EMAIL_USER || !envTruthy env.EMAIL_APP_PASSWORD then
        (some ⟨500, false, "Email configuration missing in environment variables", none⟩, [])
      else
        (some ⟨200, true, "Invitations sent successfully", none⟩,
         sendsList env (testLink.getD .null) (testCode.getD .null) (arrayElems emails))

/-- The response assembled on the valid path of revision 2
(main.js lines 248-264). -/
def assembleResponse (tr : Transport) (xs : List Json) : Response :=
  let emailResults := dispatchResults tr 0 xs
  let successfulEmails := emailResults.filter (fun r => r.success)
  let failedEmails := emailResults.filter (fun r => !r.success)
  { success := decide (0 < successfulEmails.length)
    message := "Successfully sent " ++ toString successfulEmails.length ++
      " out of " ++ toString xs.length ++ " invitations"
    details := some ⟨successfulEmails, failedEmails⟩ }

/-- The sendMail call resolved (rather than rejected). -/
def sendOk : Except JsError String → Bool
  | .ok _ => true
  | .error _ => false

/- ### Helper lemmas about the fan-out -/

theorem outcomeFor_success (tr : Transport) (i : Nat) (e : Json) :
    (outcomeFor tr i e).success = sendOk (tr.send i) := by
  cases h : tr.send i <;> simp [outcomeFor, sendOk, h]

theorem outcomeFor_email (tr : Transport) (i : Nat) (e : Json) :
    (outcomeFor tr i e).email = e := by
  cases h : tr.send i <;> simp [outcomeFor, h]

theorem dispatchResults_length (tr : Transport) (xs : List Json) (n : Nat) :
    (dispatchResults tr n xs).length = xs.length := by
  induction xs generalizing n with
  | nil => rfl
  | cons e rest ih => simp [dispatchResults, ih]

theorem dispatchResults_map_email (tr : Transport) (xs : List Json) (n : Nat) :
    (dispatchResults tr n xs).map Outcome.email = xs := by
  induction xs generalizing n with
  | nil => rfl
  | cons e rest ih => simp [dispatchResults, ih, outcomeFor_email]

theorem dispatchResults_getElem (tr : Transport) (xs : List Json) (n k : Nat) :
    (dispatchResults tr n xs)[k]? = xs[k]?.map (fun x => outcomeFor tr (n + k) x) := by
  induction xs generalizing n k with
  | nil => simp [dispatchResults]
  | cons e rest ih =>
      cases k with
      | zero => simp [dispatchResults]
      | succ k =>
          simp only [dispatchResults, List.getElem?_cons_succ]
          rw [ih (n + 1) k, show n + 1 + k = n + (k + 1) from by omega]

theorem dispatchResults_success_count (tr : Transport) (xs : List Json) (n : Nat) :
    ((dispatchResults tr n xs).filter (fun r => r.success)).length =
      (List.range' n xs.length).countP (fun i => sendOk (tr.send i)) := by
  induction xs generalizing n with
  | nil => rfl
  | cons e rest ih =>
      simp only [dispatchResults, List.length_cons, List.range'_succ, List.filter_cons,
        List.countP_cons, outcomeFor_success]
      cases h : sendOk (tr.send n) <;> simp [h, ih (n + 1), Nat.add_comm]

theorem dispatchResults_partition_length (tr : Transport) (xs : List Json) (n : Nat) :
    ((dispatchResults tr n xs).filter (fun r => r.success)).length +
      ((dispatchResults tr n xs).filter (fun r => !r.success)).length = xs.length := by
  induction xs generalizing n with
  | nil => rfl
  | cons e rest ih =>
      simp only [dispatchResults, List.length_cons, List.filter_cons]
      cases h : (outcomeFor tr n e).success <;> simp [h, ← ih (n + 1)] <;> omega

/-- Master lemma: on the valid path (payload present and parsed, fields
valid, configuration complete, transporter created and verified) the
try-block returns normally with the assembled response and a trace of
one verify call and one send per recipient. -/
theorem handleBody_valid (ctx : Context) (env : Env) (tr : Transport) (p : Json)
    (xs : List Json)
    (hp : ctx.payload = some (.ok p))
    (hx : getField p "emails" = some (.arr xs)) (hne : xs ≠ [])
    (hl : truthy (getField p "testLink") = true)
    (hc : truthy (getField p "testCode") = true)
    (henv : envComplete env = true)
    (hcr : tr.create = .ok ()) (hv : tr.verify = .ok ()) :
    handleBody ctx env tr =
      (.ok (assembleResponse tr xs),
       ⟨1, sendsList env ((getField p "testLink").getD .null)
             ((getField p "testCode").getD .null) xs⟩) := by
  have hxe : xs.isEmpty = false := by
    cases xs with
    | nil => exact absurd rfl hne
    | cons a l => rfl
  have henv2 := henv
  simp only [envComplete, Bool.and_eq_true] at henv2
  obtain ⟨⟨⟨⟨h1, h2⟩, h3⟩, h4⟩, h5⟩ := henv2
  simp [handleBody, hp, hx, hl, hc, isNonEmptyArray, hxe, h1, h2, h3, h4, h5, hcr, hv,
    arrayElems, assembleResponse]

/-- Master lemma at the level of the exported handler. -/
theorem handle_valid (ctx : Context) (env : Env) (tr : Transport) (p : Json)
    (xs : List Json)
    (hp : ctx.payload = some (.ok p))
    (hx : getField p "emails" = some (.arr xs)) (hne : xs ≠ [])
    (hl : truthy (getField p "testLink") = true)
    (hc : truthy (getField p "testCode") = true)
    (henv : envComplete env = true)
    (hcr : tr.create = .ok ()) (hv : tr.verify = .ok ()) :
    handle ctx env tr =
      (assembleResponse tr xs,
       ⟨1, sendsList env ((getField p "testLink").getD .null)
             ((getField p "testCode").getD .null) xs⟩) := by
  rw [handle, handleBody_valid ctx env tr p xs hp hx hne hl hc henv hcr hv]

/- ### Concrete fixtures -/

/-- The emails of the sample request of spec section 8, property 8. -/
def sampleEmails : List Json := [.str "a@x.com", .str "b@x.com"]

/-- The sample request payload of spec section 8, property 8. -/
def samplePayload : Json :=
  .obj [("emails", .arr sampleEmails),
        ("testLink", .str "https://t/1"), ("testCode", .str "ABC123")]

/-- A context whose payload parses to the sample request. -/
def sampleCtx : Context := ⟨some (.ok samplePayload)⟩

/-- A complete environment. -/
def sampleEnv : Env :=
  ⟨some "https://aw.example", some "proj1", some "key1",
   some "mailer@example.com", some "secret1"⟩

/-- An environment whose mail-account secret is absent. -/
def sampleEnvNoSecret : Env :=
  ⟨some "https://aw.example", some "proj1", some "key1",
   some "mailer@example.com", none⟩

/-- A transport where creation, verification and every send succeed. -/
def sampleTransportOk : Transport := ⟨.ok (), .ok (), fun _ => .ok "mid"⟩

/-- A transport where the first send is rejected and the rest succeed. -/
def sampleTransportFail0 : Transport :=
  ⟨.ok (), .ok (), fun i => if i == 0 then .error ⟨"boom", "stacktrace"⟩ else .ok "mid"⟩

/-- A transport where every send is rejected. -/
def sampleTransportAllFail : Transport :=
  ⟨.ok (), .ok (), fun _ => .error ⟨"boom", "stacktrace"⟩⟩

/-- A transport whose verification fails. -/
def sampleTransportVerifyErr : Transport :=
  ⟨.ok (), .error ⟨"auth bad", "stk2"⟩, fun _ => .ok "mid"⟩

/-- A transport whose creation throws. -/
def sampleTransportCreateErr : Transport :=
  ⟨.error ⟨"ctor failed", "stk"⟩, .ok (), fun _ => .ok "mid"⟩

/-- A payload without a testLink field. -/
def badFieldsPayload : Json :=
  .obj [("emails", .arr [.str "a@x.com"]), ("testCode", .str "ABC123")]

/-- A context carrying the payload without a testLink field. -/
def badFieldsCtx : Context := ⟨some (.ok badFieldsPayload)⟩

/-- A context whose payload is present but is not valid JSON. -/
def badJsonCtx : Context := ⟨some (.error "Unexpected token")⟩

/- ### Claims -/

/-- C1: for every valid request with a non-empty recipient list, the
response-level success flag is true if and only if at least one
recipient send succeeded; in particular, when every one of the N sends
fails the handler returns success false. -/
theorem C1_response_success_iff_some_send_ok
    (ctx : Context) (env : Env) (tr : Transport) (p : Json) (xs : List Json)
    (hp : ctx.payload = some (.ok p))
    (hx : getField p "emails" = some (.arr xs)) (hne : xs ≠ [])
    (hl : truthy (getField p "testLink") = true)
    (hc : truthy (getField p "testCode") = true)
    (henv : envComplete env = true)
    (hcr : tr.create = .ok ()) (hv : tr.verify = .ok ()) :
    ((handle ctx env tr).1.success = true ↔
       ∃ i < xs.length, sendOk (tr.send i) = true) ∧
      ((∀ i < xs.length, sendOk (tr.send i) = false) →
        (handle ctx env tr).1.success = false) := by
  have hs : (handle ctx env tr).1 = assembleResponse tr xs := by
    rw [handle_valid ctx env tr p xs hp hx hne hl hc henv hcr hv]
  rw [hs]
  have hiff : (assembleResponse tr xs).success = true ↔
      ∃ i < xs.length, sendOk (tr.send i) = true := by
    simp only [assembleResponse, decide_eq_true_eq]
    rw [dispatchResults_success_count, ← List.range_eq_range', List.countP_pos_iff]
    constructor
    · rintro ⟨a, ha, hpa⟩
      exact ⟨a, List.mem_range.mp ha, hpa⟩
    · rintro ⟨i, hi, hoki⟩
      exact ⟨i, List.mem_range.mpr hi, hoki⟩
  refine ⟨hiff, fun hall => ?_⟩
  cases hsucc : (assembleResponse tr xs).success
  · rfl
  · obtain ⟨i, hi, hok⟩ := hiff.mp hsucc
    rw [hall i hi] at hok
    exact absurd hok (by simp)

/-- C1 witness: at the sample request with the all-fail transport, the
hypotheses hold and the claim applies (so in particular the response is
a failure). -/
theorem C1_witness :
    (sampleCtx.payload = some (.ok samplePayload) ∧
     getField samplePayload "emails" = some (.arr sampleEmails) ∧
     sampleEmails ≠ [] ∧
     truthy (getField samplePayload "testLink") = true ∧
     truthy (getField samplePayload "testCode") = true ∧
     envComplete sampleEnv = true ∧
     sampleTransportAllFail.create = .ok () ∧
     sampleTransportAllFail.verify = .ok ()) ∧
    (((handle sampleCtx sampleEnv sampleTransportAllFail).1.success = true ↔
        ∃ i < sampleEmails.length, sendOk (sampleTransportAllFail.send i) = true) ∧
      ((∀ i < sampleEmails.length, sendOk (sampleTransportAllFail.send i) = false) →
        (handle sampleCtx sampleEnv sampleTransportAllFail).1.success = false)) :=
  ⟨⟨rfl, rfl, by simp [sampleEmails], rfl, rfl, rfl, rfl, rfl⟩,
   C1_response_success_iff_some_send_ok sampleCtx sampleEnv sampleTransportAllFail
     samplePayload sampleEmails rfl rfl (by simp [sampleEmails]) rfl rfl rfl rfl rfl⟩

/-- C5: for every valid request with N recipients, exactly one outcome
is produced per entry of emails (in their order), and the successful and
failed sequences of the response partition those N outcomes, each
preserving the original relative order. -/
theorem C5_outcomes_partition
    (ctx : Context) (env : Env) (tr : Transport) (p : Json) (xs : List Json)
    (hp : ctx.payload = some (.ok p))
    (hx : getField p "emails" = some (.arr xs)) (hne : xs ≠ [])
    (hl : truthy (getField p "testLink") = true)
    (hc : truthy (getField p "testCode") = true)
    (henv : envComplete env = true)
    (hcr : tr.create = .ok ()) (hv : tr.verify = .ok ()) :
    (dispatchResults tr 0 xs).length = xs.length ∧
    (dispatchResults tr 0 xs).map Outcome.email = xs ∧
    ∃ d : Details, (handle ctx env tr).1.details = some d ∧
      d.successful.length + d.failed.length = xs.length ∧
      d.successful.Sublist (dispatchResults tr 0 xs) ∧
      d.failed.Sublist (dispatchResults tr 0 xs) ∧
      (∀ r ∈ d.successful, r.success = true) ∧
      (∀ r ∈ d.failed, r.success = false) := by
  have hs : (handle ctx env tr).1 = assembleResponse tr xs := by
    rw [handle_valid ctx env tr p xs hp hx hne hl hc henv hcr hv]
  refine ⟨dispatchResults_length tr xs 0, dispatchResults_map_email tr xs 0,
    ⟨(dispatchResults tr 0 xs).filter (fun r => r.success),
     (dispatchResults tr 0 xs).filter (fun r => !r.success)⟩,
    ?_, dispatchResults_partition_length tr xs 0,
    List.filter_sublist _, List.filter_sublist _, ?_, ?_⟩
  · rw [hs]; rfl
  · intro r hr
    exact (List.mem_filter.mp hr).2
  · intro r hr
    have h2 := (List.mem_filter.mp hr).2
    simpa using h2

/-- C5 witness: at the sample request with the transport failing the
first send, the hypotheses hold and the claim applies. -/
theorem C5_witness :
    (sampleCtx.payload = some (.ok samplePayload) ∧
     getField samplePayload "emails" = some (.arr sampleEmails) ∧
     sampleEmails ≠ [] ∧
     truthy (getField samplePayload "testLink") = true ∧
     truthy (getField samplePayload "testCode") = true ∧
     envComplete sampleEnv = true ∧
     sampleTransportFail0.create = .ok () ∧
     sampleTransportFail0.verify = .ok ()) ∧
    ((dispatchResults sampleTransportFail0 0 sampleEmails).length = sampleEmails.length ∧
     (dispatchResults sampleTransportFail0 0 sampleEmails).map Outcome.email = sampleEmails ∧
     ∃ d : Details, (handle sampleCtx sampleEnv sampleTransportFail0).1.details = some d ∧
       d.successful.length + d.failed.length = sampleEmails.length ∧
       d.successful.Sublist (dispatchResults sampleTransportFail0 0 sampleEmails) ∧
       d.failed.Sublist (dispatchResults sampleTransportFail0 0 sampleEmails) ∧
       (∀ r ∈ d.successful, r.success = true) ∧
       (∀ r ∈ d.failed, r.success = false)) :=
  ⟨⟨rfl, rfl, by simp [sampleEmails], rfl, rfl, rfl, rfl, rfl⟩,
   C5_outcomes_partition sampleCtx sampleEnv sampleTransportFail0
     samplePayload sampleEmails rfl rfl (by simp [sampleEmails]) rfl rfl rfl rfl rfl⟩

/-- C6: for every valid request with N recipients of which X sends
succeed, the response message is the count string
"Successfully sent X out of N invitations"; when all N succeed it
reports N out of N. -/
theorem C6_message_count
    (ctx : Context) (env : Env) (tr : Transport) (p : Json) (xs : List Json)
    (hp : ctx.payload = some (.ok p))
    (hx : getField p "emails" = some (.arr xs)) (hne : xs ≠ [])
    (hl : truthy (getField p "testLink") = true)
    (hc : truthy (getField p "testCode") = true)
    (henv : envComplete env = true)
    (hcr : tr.create = .ok ()) (hv : tr.verify = .ok ()) :
    ((handle ctx env tr).1.message =
       "Successfully sent " ++
         toString ((List.range xs.length).countP (fun i => sendOk (tr.send i))) ++
         " out of " ++ toString xs.length ++ " invitations") ∧
      ((∀ i < xs.length, sendOk (tr.send i) = true) →
        (handle ctx env tr).1.message =
          "Successfully sent " ++ toString xs.length ++ " out of " ++
            toString xs.length ++ " invitations") := by
  have hs : (handle ctx env tr).1 = assembleResponse tr xs := by
    rw [handle_valid ctx env tr p xs hp hx hne hl hc henv hcr hv]
  rw [hs]
  have hcount : ((dispatchResults tr 0 xs).filter (fun r => r.success)).length =
      (List.range xs.length).countP (fun i => sendOk (tr.send i)) := by
    rw [dispatchResults_success_count, List.range_eq_range']
  constructor
  · simp only [assembleResponse]
    rw [hcount]
  · intro hall
    simp only [assembleResponse]
    rw [hcount, List.countP_eq_length.mpr (fun a ha => hall a (List.mem_range.mp ha)),
      List.length_range]

/-- C6 witness: at the sample request with the all-success transport,
the hypotheses hold and the claim applies (2 out of 2). -/
theorem C6_witness :
    (sampleCtx.payload = some (.ok samplePayload) ∧
     getField samplePayload "emails" = some (.arr sampleEmails) ∧
     sampleEmails ≠ [] ∧
     truthy (getField samplePayload "testLink") = true ∧
     truthy (getField samplePayload "testCode") = true ∧
     envComplete sampleEnv = true ∧
     sampleTransportOk.create = .ok () ∧
     sampleTransportOk.verify = .ok ()) ∧
    (((handle sampleCtx sampleEnv sampleTransportOk).1.message =
        "Successfully sent " ++
          toString ((List.range sampleEmails.length).countP
            (fun i => sendOk (sampleTransportOk.send i))) ++
          " out of " ++ toString sampleEmails.length ++ " invitations") ∧
      ((∀ i < sampleEmails.length, sendOk (sampleTransportOk.send i) = true) →
        (handle sampleCtx sampleEnv sampleTransportOk).1.message =
          "Successfully sent " ++ toString sampleEmails.length ++ " out of " ++
            toString sampleEmails.length ++ " invitations")) :=
  ⟨⟨rfl, rfl, by simp [sampleEmails], rfl, rfl, rfl, rfl, rfl⟩,
   C6_message_count sampleCtx sampleEnv sampleTransportOk
     samplePayload sampleEmails rfl rfl (by simp [sampleEmails]) rfl rfl rfl rfl rfl⟩

/-- C2: for every payload in which emails is absent, not a sequence, or
empty, or in which testLink or testCode is absent or an empty string,
the handler returns success false and performs zero mail-transport
calls (no send, no verify). -/
theorem C2_invalid_fields_rejected
    (ctx : Context) (env : Env) (tr : Transport) (p : Json)
    (hp : ctx.payload = some (.ok p))
    (hbad : isNonEmptyArray (getField p "emails") = false ∨
            getField p "testLink" = none ∨ getField p "testLink" = some (.str "") ∨
            getField p "testCode" = none ∨ getField p "testCode" = some (.str "")) :
    (handle ctx env tr).1.success = false ∧
    (handle ctx env tr).2.sends = [] ∧
    (handle ctx env tr).2.verifyCalls = 0 := by
  rcases hbad with h | h | h | h | h <;>
    simp [handle, handleBody, hp, h, truthy]

/-- C2 witness: the payload without a testLink field is rejected with no
transport interaction. -/
theorem C2_witness :
    (badFieldsCtx.payload = some (.ok badFieldsPayload) ∧
     getField badFieldsPayload "testLink" = none) ∧
    ((handle badFieldsCtx sampleEnv sampleTransportOk).1.success = false ∧
     (handle badFieldsCtx sampleEnv sampleTransportOk).2.sends = [] ∧
     (handle badFieldsCtx sampleEnv sampleTransportOk).2.verifyCalls = 0) :=
  ⟨⟨rfl, rfl⟩,
   C2_invalid_fields_rejected badFieldsCtx sampleEnv sampleTransportOk badFieldsPayload
     rfl (Or.inr (Or.inl rfl))⟩

/-- C3: for every otherwise-valid request, if any of the five required
configuration values is absent from the environment, the handler returns
a failure response with zero invocations of the mail transport (no send,
no verify). -/
theorem C3_missing_config_short_circuits
    (ctx : Context) (env : Env) (tr : Transport) (p : Json)
    (hp : ctx.payload = some (.ok p))
    (hfv : isNonEmptyArray (getField p "emails") = true)
    (hl : truthy (getField p "testLink") = true)
    (hc : truthy (getField p "testCode") = true)
    (hmiss : env.APPWRITE_ENDPOINT = none ∨ env.APPWRITE_FUNCTION_PROJECT_ID = none ∨
             env.APPWRITE_API_KEY = none ∨ env.EMAIL_USER = none ∨
             env.EMAIL_APP_PASSWORD = none) :
    (handle ctx env tr).1.success = false ∧
    (handle ctx env tr).2.sends = [] ∧
    (handle ctx env tr).2.verifyCalls = 0 := by
  rcases hmiss with h | h | h | h | h
  · have he : envTruthy env.APPWRITE_ENDPOINT = false := by rw [h]; rfl
    simp [handle, handleBody, hp, hfv, hl, hc, he]
  · have he : envTruthy env.APPWRITE_FUNCTION_PROJECT_ID = false := by rw [h]; rfl
    simp [handle, handleBody, hp, hfv, hl, hc, he]
  · have he : envTruthy env.APPWRITE_API_KEY = false := by rw [h]; rfl
    simp [handle, handleBody, hp, hfv, hl, hc, he]
  · have he : envTruthy env.EMAIL_USER = false := by rw [h]; rfl
    cases hb : (!envTruthy env.APPWRITE_ENDPOINT || !envTruthy env.APPWRITE_FUNCTION_PROJECT_ID ||
        !envTruthy env.APPWRITE_API_KEY) <;>
      simp [handle, handleBody, hp, hfv, hl, hc, hb, he]
  · have he : envTruthy env.EMAIL_APP_PASSWORD = false := by rw [h]; rfl
    cases hb : (!envTruthy env.APPWRITE_ENDPOINT || !envTruthy env.APPWRITE_FUNCTION_PROJECT_ID ||
        !envTruthy env.APPWRITE_API_KEY) <;>
      simp [handle, handleBody, hp, hfv, hl, hc, hb, he]

/-- C3 witness: the sample request with the mail-account secret missing
from the environment is rejected with no transport interaction. -/
theorem C3_witness :
    (sampleCtx.payload = some (.ok samplePayload) ∧
     isNonEmptyArray (getField samplePayload "emails") = true ∧
     truthy (getField samplePayload "testLink") = true ∧
     truthy (getField samplePayload "testCode") = true ∧
     sampleEnvNoSecret.EMAIL_APP_PASSWORD = none) ∧
    ((handle sampleCtx sampleEnvNoSecret sampleTransportOk).1.success = false ∧
     (handle sampleCtx sampleEnvNoSecret sampleTransportOk).2.sends = [] ∧
     (handle sampleCtx sampleEnvNoSecret sampleTransportOk).2.verifyCalls = 0) :=
  ⟨⟨rfl, rfl, rfl, rfl, rfl⟩,
   C3_missing_config_short_circuits sampleCtx sampleEnvNoSecret sampleTransportOk
     samplePayload rfl rfl rfl rfl
     (Or.inr (Or.inr (Or.inr (Or.inr rfl))))⟩

/-- C4: for every valid request, a failed send at position i is caught
locally and yields the outcome with success false and the error message;
the try-block still returns a normal detailed response, all N send
attempts are still made, and the outcome at any other position j is a
function only of the send result at that same position. -/
theorem C4_send_failure_isolated
    (ctx : Context) (env : Env) (tr : Transport) (p : Json) (xs : List Json)
    (hp : ctx.payload = some (.ok p))
    (hx : getField p "emails" = some (.arr xs)) (hne : xs ≠ [])
    (hl : truthy (getField p "testLink") = true)
    (hc : truthy (getField p "testCode") = true)
    (henv : envComplete env = true)
    (hcr : tr.create = .ok ()) (hv : tr.verify = .ok ())
    (i : Nat) (x : Json) (e : JsError)
    (hix : xs[i]? = some x) (hsend : tr.send i = .error e) :
    (dispatchResults tr 0 xs)[i]? =
      some { email := x, success := false, messageId := none, error := some e.message } ∧
    (∃ r : Response, (handleBody ctx env tr).1 = .ok r ∧ r.details.isSome = true) ∧
    (handle ctx env tr).2.sends.length = xs.length ∧
    (∀ (tr2 : Transport) (j : Nat), j ≠ i → tr2.send j = tr.send j →
      (dispatchResults tr2 0 xs)[j]? = (dispatchResults tr 0 xs)[j]?) := by
  refine ⟨?_, ?_, ?_, ?_⟩
  · rw [dispatchResults_getElem, hix]
    simp [outcomeFor, hsend]
  · refine ⟨assembleResponse tr xs, ?_, ?_⟩
    · rw [handleBody_valid ctx env tr p xs hp hx hne hl hc henv hcr hv]
    · simp [assembleResponse]
  · rw [handle_valid ctx env tr p xs hp hx hne hl hc henv hcr hv]
    simp [sendsList]
  · intro tr2 j hji hsj
    rw [dispatchResults_getElem, dispatchResults_getElem]
    cases hxj : xs[j]? <;> simp [outcomeFor, hsj]

/-- C4 witness: at the sample request where the first send fails, the
hypotheses hold and the claim applies. -/
theorem C4_witness :
    (sampleCtx.payload = some (.ok samplePayload) ∧
     getField samplePayload "emails" = some (.arr sampleEmails) ∧
     envComplete sampleEnv = true ∧
     sampleEmails[0]? = some (.str "a@x.com") ∧
     sampleTransportFail0.send 0 = .error ⟨"boom", "stacktrace"⟩) ∧
    ((dispatchResults sampleTransportFail0 0 sampleEmails)[0]? =
       some { email := .str "a@x.com", success := false, messageId := none,
              error := some "boom" } ∧
     (∃ r : Response, (handleBody sampleCtx sampleEnv sampleTransportFail0).1 = .ok r ∧
        r.details.isSome = true) ∧
     (handle sampleCtx sampleEnv sampleTransportFail0).2.sends.length = sampleEmails.length ∧
     (∀ (tr2 : Transport) (j : Nat), j ≠ 0 → tr2.send j = sampleTransportFail0.send j →
       (dispatchResults tr2 0 sampleEmails)[j]? =
         (dispatchResults sampleTransportFail0 0 sampleEmails)[j]?)) :=
  ⟨⟨rfl, rfl, rfl, rfl, rfl⟩,
   C4_send_failure_isolated sampleCtx sampleEnv sampleTransportFail0
     samplePayload sampleEmails rfl rfl (by simp [sampleEmails]) rfl rfl rfl rfl rfl
     0 (.str "a@x.com") ⟨"boom", "stacktrace"⟩ rfl rfl⟩

/-- C7: for every request body that is present but is not valid JSON,
the try-block returns normally (no exception escapes) with success false
and the JSON-error message, and no transport interaction occurs. -/
theorem C7_malformed_json_rejected
    (ctx : Context) (env : Env) (tr : Transport) (msg : String)
    (hp : ctx.payload = some (.error msg)) :
    handleBody ctx env tr =
      (.ok { success := false, message := "Invalid JSON in payload" }, ⟨0, []⟩) ∧
    (handle ctx env tr).1.success = false ∧
    (handle ctx env tr).2.sends = [] ∧
    (handle ctx env tr).2.verifyCalls = 0 := by
  refine ⟨?_, ?_⟩
  · simp [handleBody, hp]
  · simp [handle, handleBody, hp]

/-- C7 witness: the context with an unparseable payload is rejected with
no transport interaction. -/
theorem C7_witness :
    (badJsonCtx.payload = some (.error "Unexpected token")) ∧
    (handleBody badJsonCtx sampleEnv sampleTransportOk =
      (.ok { success := false, message := "Invalid JSON in payload" }, ⟨0, []⟩) ∧
     (handle badJsonCtx sampleEnv sampleTransportOk).1.success = false ∧
     (handle badJsonCtx sampleEnv sampleTransportOk).2.sends = [] ∧
     (handle badJsonCtx sampleEnv sampleTransportOk).2.verifyCalls = 0) :=
  ⟨rfl, C7_malformed_json_rejected badJsonCtx sampleEnv sampleTransportOk
     "Unexpected token" rfl⟩

/-- C8: for every valid request and every recipient address, the
constructed message has sender equal to the configured mail identity,
recipient equal to that address, the fixed subject literal, and the HTML
body interpolating testLink as both link text and href target and
testCode verbatim, with no escaping of either value. -/
theorem C8_mail_options_shape
    (ctx : Context) (env : Env) (tr : Transport) (p : Json) (xs : List Json)
    (u lnk cde : String)
    (hp : ctx.payload = some (.ok p))
    (hx : getField p "emails" = some (.arr xs)) (hne : xs ≠ [])
    (hu : env.EMAIL_USER = some u)
    (hlv : getField p "testLink" = some (.str lnk)) (hlnz : lnk ≠ "")
    (hcv : getField p "testCode" = some (.str cde)) (hcnz : cde ≠ "")
    (henv : envComplete env = true)
    (hcr : tr.create = .ok ()) (hv : tr.verify = .ok ()) :
    ∀ (i : Nat) (x : Json), xs[i]? = some x →
      (handle ctx env tr).2.sends[i]? =
        some ({ «from» := u, «to» := x,
                subject := "Invitation to Participate in a Test",
                html := htmlPart1 ++ lnk ++ htmlPart2 ++ lnk ++ htmlPart3 ++
                  cde ++ htmlPart4 } : MailOptions) := by
  have hl : truthy (getField p "testLink") = true := by
    rw [hlv]; simp [truthy, hlnz]
  have hc : truthy (getField p "testCode") = true := by
    rw [hcv]; simp [truthy, hcnz]
  intro i x hix
  rw [handle_valid ctx env tr p xs hp hx hne hl hc henv hcr hv]
  simp only [sendsList, hlv, hcv, Option.getD_some, List.getElem?_map, hix, Option.map_some']
  simp [mailOptionsFor, hu, jsToString, invitationHtml]

/-- C8 witness: at the sample request, the first send carries the
expected mailOptions, with the sample link and code interpolated raw. -/
theorem C8_witness :
    (sampleCtx.payload = some (.ok samplePayload) ∧
     sampleEnv.EMAIL_USER = some "mailer@example.com" ∧
     getField samplePayload "testLink" = some (.str "https://t/1") ∧
     getField samplePayload "testCode" = some (.str "ABC123") ∧
     sampleEmails[0]? = some (.str "a@x.com")) ∧
    (handle sampleCtx sampleEnv sampleTransportOk).2.sends[0]? =
      some ({ «from» := "mailer@example.com", «to» := .str "a@x.com",
              subject := "Invitation to Participate in a Test",
              html := htmlPart1 ++ "https://t/1" ++ htmlPart2 ++ "https://t/1" ++
                htmlPart3 ++ "ABC123" ++ htmlPart4 } : MailOptions) :=
  ⟨⟨rfl, rfl, rfl, rfl, rfl⟩,
   C8_mail_options_shape sampleCtx sampleEnv sampleTransportOk samplePayload
     sampleEmails "mailer@example.com" "https://t/1" "ABC123"
     rfl rfl (by simp [sampleEmails]) rfl rfl (by decide) rfl (by decide) rfl rfl rfl
     0 (.str "a@x.com") rfl⟩

/-- C9: whenever an exception escapes the try-block, the top-level catch
converts it into a failure response whose message carries the exception
message (and whose error field carries the stack); the handler itself
always returns a response. -/
theorem C9_top_level_catch
    (ctx : Context) (env : Env) (tr : Transport) (e : JsError) (t : Trace)
    (h : handleBody ctx env tr = (.error e, t)) :
    handle ctx env tr =
      ({ success := false, message := "Unexpected error: " ++ e.message,
         details := none, error := some e.stack }, t) := by
  simp [handle, h]

/-- C9 witness: with a transport whose creation throws, the valid sample
request reaches the top-level catch and is converted into the failure
response carrying the error message. -/
theorem C9_witness :
    (handleBody sampleCtx sampleEnv sampleTransportCreateErr =
      (.error ⟨"ctor failed", "stk"⟩, ⟨0, []⟩)) ∧
    handle sampleCtx sampleEnv sampleTransportCreateErr =
      ({ success := false, message := "Unexpected error: " ++ "ctor failed",
         details := none, error := some "stk" }, ⟨0, []⟩) :=
  ⟨rfl, C9_top_level_catch sampleCtx sampleEnv sampleTransportCreateErr
     ⟨"ctor failed", "stk"⟩ ⟨0, []⟩ rfl⟩

/-- C10: in revision 2, after all validations pass and before any
per-recipient send, the handler verifies the transporter; on failure it
returns success false with a message carrying the verification error,
having performed the one verify call and zero sends. -/
theorem C10_verify_guard
    (ctx : Context) (env : Env) (tr : Transport) (p : Json) (xs : List Json)
    (e : JsError)
    (hp : ctx.payload = some (.ok p))
    (hx : getField p "emails" = some (.arr xs)) (hne : xs ≠ [])
    (hl : truthy (getField p "testLink") = true)
    (hc : truthy (getField p "testCode") = true)
    (henv : envComplete env = true)
    (hcr : tr.create = .ok ()) (hverr : tr.verify = .error e) :
    handle ctx env tr =
      ({ success := false,
         message := "Email configuration verification failed: " ++ e.message },
       ⟨1, []⟩) := by
  have hxe : xs.isEmpty = false := by
    cases xs with
    | nil => exact absurd rfl hne
    | cons a l => rfl
  have henv2 := henv
  simp only [envComplete, Bool.and_eq_true] at henv2
  obtain ⟨⟨⟨⟨h1, h2⟩, h3⟩, h4⟩, h5⟩ := henv2
  simp [handle, handleBody, hp, hx, hl, hc, isNonEmptyArray, hxe, h1, h2, h3, h4, h5,
    hcr, hverr]

/-- C10 witness: the valid sample request with a failing verification is
answered with the verification-failure message, one verify call and zero
sends. -/
theorem C10_witness :
    (sampleCtx.payload = some (.ok samplePayload) ∧
     envComplete sampleEnv = true ∧
     sampleTransportVerifyErr.verify = .error ⟨"auth bad", "stk2"⟩) ∧
    handle sampleCtx sampleEnv sampleTransportVerifyErr =
      ({ success := false,
         message := "Email configuration verification failed: " ++ "auth bad" },
       ⟨1, []⟩) :=
  ⟨⟨rfl, rfl, rfl⟩,
   C10_verify_guard sampleCtx sampleEnv sampleTransportVerifyErr samplePayload
     sampleEmails ⟨"auth bad", "stk2"⟩ rfl rfl (by simp [sampleEmails]) rfl rfl rfl
     rfl rfl⟩

/-- Contrast fact about the first revision: on a valid request it
answers with the fixed 200 success response, whatever would become of
the individual sends (their outcomes are discarded); only the second
revision reports per-recipient results.  This fact is why the claims
about the response shape are settled against the final revision. -/
theorem handleV1_fixed_success_response :
    (handleV1 true (some (.ok samplePayload)) sampleEnv).1 =
      some ⟨200, true, "Invitations sent successfully", none⟩ := rfl

end AppwriteMailer
